import Mathlib

/-!
Verification of the popup lifecycle controller and datepicker directive
from `src/datepicker/directives/datepicker.directive.ts` (which also
contains the `SuiPopupBaseDirective` controller).

The controller is modelled as an explicit state machine. Machine steps
correspond to the public operations (`open`, `close`, `toggle`), the
DOM event handlers (`mouseenter`, `mouseleave`, `click`,
`document:click`, `focus`, `focusout`), the elapse of the pending
`setTimeout` open-delay timer, and the firing of the popup instance
close-completion signal (`onClose`).

Ghost fields (`createdTotal`, `destroyedTotal`, `calls`, and the
per-instance `closeSubs` subscription counter) record observable
actions of the code without influencing control flow; they let us
state "an instance was created", "close() was invoked" and "the
onClose handler was registered once" as facts about the state.
-/

namespace NgPopup

/-- Trigger modes of `PopupTrigger` from `popup-config`. -/
inductive PopupTrigger
  | Hover
  | Click
  | OutsideClick
  | Focus
  | Manual
deriving DecidableEq, Repr

/-- The part of `PopupConfig` the controller reads: trigger mode and
open delay (`this._popupConfig.trigger`, `this._popupConfig.delay`). -/
structure PopupConfig where
  trigger : PopupTrigger
  delay : Nat
deriving DecidableEq, Repr

/-- The transient popup instance (`SuiPopup`), as seen by the
controller: its `isOpen` flag, whether its element has been moved to
`document.body` (line 199 of the source), plus ghost fields `id`
(structural identity of the created component reference) and
`closeSubs` (how many handlers were registered on its `onClose`
emitter). -/
structure SuiPopup where
  id : Nat
  isOpen : Bool
  inBody : Bool
  closeSubs : Nat
deriving DecidableEq, Repr

/-- Modelled from the spec: the instance `open()` transition
(`this._popup.open()`) starts the open transition, after which the
instance reports `isOpen`. The `SuiPopup` component itself is not
under `src/`; the spec describes `open()`/`close()`/`isOpen` as the
collaborator contract. -/
def popupOpen (p : SuiPopup) : SuiPopup :=
  { p with isOpen := true }

/-- Modelled from the spec: the instance `close()` transition
(`this._popup.close()`) starts the close transition; the instance
stops reporting open, but is not destroyed until the completion
signal (`onClose`) fires. -/
def popupClose (p : SuiPopup) : SuiPopup :=
  { p with isOpen := false }

/-- Ghost tags recording which controller operation ran. -/
inductive CallTag
  | openC
  | closeC
deriving DecidableEq, Repr

/-- State of `SuiPopupBaseDirective`: the stored `_popupConfig`, the
optional `_componentRef`, and whether the `setTimeout` scheduled by
`open()` is still pending (`clearTimeout` cancels it). `nextId`,
`createdTotal`, `destroyedTotal` and `calls` are ghost fields. -/
structure ControllerState where
  config : PopupConfig
  componentRef : Option SuiPopup
  pending : Bool
  nextId : Nat
  createdTotal : Nat
  destroyedTotal : Nat
  calls : List CallTag
deriving DecidableEq, Repr

/-- Controller state right after construction: no component reference
and no pending timer. -/
def initState (cfg : PopupConfig) : ControllerState :=
  { config := cfg
    componentRef := none
    pending := false
    nextId := 0
    createdTotal := 0
    destroyedTotal := 0
    calls := [] }

/-- `open()` (source lines 175-217): `clearTimeout` then
`window.setTimeout(callback, delay)` — any previously pending timer is
replaced by a freshly armed one. The scheduled callback is a separate
machine step (`fireTimer`). -/
def openOp (s : ControllerState) : ControllerState :=
  { s with pending := true, calls := s.calls ++ [CallTag.openC] }

/-- `close()` (source lines 219-227): `clearTimeout` cancels the
pending open timer; then, only if `_componentRef` exists, the instance
close transition is started. -/
def closeOp (s : ControllerState) : ControllerState :=
  { s with pending := false
           componentRef := s.componentRef.map popupClose
           calls := s.calls ++ [CallTag.closeC] }

/-- `toggle()` (source lines 229-237): if the popup has not been
created, or it has but is not currently open, delegate to `open()`;
otherwise delegate to `close()`. -/
def toggleOp (s : ControllerState) : ControllerState :=
  match s.componentRef with
  | none => openOp s
  | some p => if !p.isOpen then openOp s else closeOp s

/-- The `setTimeout` callback scheduled by `open()` (source lines
181-215) runs, provided the timer is still pending (a cancelled timer
never fires). If no `_componentRef` exists, a fresh component is
created, its element appended to the body, its `onClose` emitter
subscribed to exactly once; in every case `this._popup.open()` then
starts the open transition. -/
def fireTimer (s : ControllerState) : ControllerState :=
  if s.pending then
    match s.componentRef with
    | none =>
        let p : SuiPopup :=
          { id := s.nextId, isOpen := false, inBody := true, closeSubs := 1 }
        { s with pending := false
                 componentRef := some (popupOpen p)
                 nextId := s.nextId + 1
                 createdTotal := s.createdTotal + 1 }
    | some p =>
        { s with pending := false, componentRef := some (popupOpen p) }
  else s

/-- The `onClose` completion handler registered at creation (source
lines 202-209): if `_componentRef` still exists, destroy it and clear
the reference. -/
def completeClose (s : ControllerState) : ControllerState :=
  match s.componentRef with
  | some _ =>
      { s with componentRef := none, destroyedTotal := s.destroyedTotal + 1 }
  | none => s

/-- Where a document-wide click landed, relative to the anchor element
and the popup element. -/
inductive TargetLoc
  | inAnchor
  | inPopup
  | elsewhere
deriving DecidableEq, Repr

/-- The containment test `this._element.nativeElement.contains(target)`
(source line 267). It tests only the anchor element; since the popup
element is appended to `document.body` (line 199), a target inside the
popup content is not contained in the anchor subtree. -/
def anchorContains : TargetLoc → Bool
  | TargetLoc.inAnchor => true
  | _ => false

/-- `onMouseEnter` handler (source lines 239-244). -/
def onMouseEnter (s : ControllerState) : ControllerState :=
  if s.config.trigger = PopupTrigger.Hover then openOp s else s

/-- `onMouseLeave` handler (source lines 246-251). -/
def onMouseLeave (s : ControllerState) : ControllerState :=
  if s.config.trigger = PopupTrigger.Hover then closeOp s else s

/-- `onClick` handler for clicks on the anchor (source lines 253-259). -/
def onClick (s : ControllerState) : ControllerState :=
  if s.config.trigger = PopupTrigger.Click ∨
     s.config.trigger = PopupTrigger.OutsideClick then toggleOp s else s

/-- `onDocumentClick` handler (source lines 261-271): acts only when a
component reference exists and the trigger is `OutsideClick`, and then
closes only when the click target is not contained in the anchor. -/
def onDocumentClick (s : ControllerState) (loc : TargetLoc) : ControllerState :=
  if s.componentRef.isSome ∧ s.config.trigger = PopupTrigger.OutsideClick then
    if !anchorContains loc then closeOp s else s
  else s

/-- `onFocus` handler (source lines 273-278). -/
def onFocus (s : ControllerState) : ControllerState :=
  if s.config.trigger = PopupTrigger.Focus then openOp s else s

/-- `onFocusOut` handler (source lines 280-285). -/
def onFocusOut (s : ControllerState) : ControllerState :=
  if s.config.trigger = PopupTrigger.Focus then closeOp s else s

/-- Events driving the controller: direct API calls, the open-delay
timer elapsing, the instance close-completion signal, and the raw DOM
interaction events. -/
inductive Event
  | callOpen
  | callClose
  | callToggle
  | timerFires
  | closeCompletes
  | mouseEnter
  | mouseLeave
  | anchorClick
  | docClick (loc : TargetLoc)
  | focusEv
  | focusOutEv
deriving DecidableEq, Repr

/-- One machine step: dispatch an event to the corresponding source
operation or handler. -/
def step (s : ControllerState) : Event → ControllerState
  | Event.callOpen => openOp s
  | Event.callClose => closeOp s
  | Event.callToggle => toggleOp s
  | Event.timerFires => fireTimer s
  | Event.closeCompletes => completeClose s
  | Event.mouseEnter => onMouseEnter s
  | Event.mouseLeave => onMouseLeave s
  | Event.anchorClick => onClick s
  | Event.docClick loc => onDocumentClick s loc
  | Event.focusEv => onFocus s
  | Event.focusOutEv => onFocusOut s

/-- Run the controller from construction through a sequence of events. -/
def run (cfg : PopupConfig) (evs : List Event) : ControllerState :=
  evs.foldl step (initState cfg)

/-- Number of live popup instances (0 or 1, since the controller holds
a single optional reference). -/
def liveCount (s : ControllerState) : Nat :=
  if s.componentRef.isSome then 1 else 0

/-- Reachability invariant of the controller: every instance ever
created is accounted for (created = destroyed + live), and the live
instance, when present, has its `onClose` handler registered exactly
once, sits in the document body, and carries an identity below the
fresh-id counter. -/
def Inv (s : ControllerState) : Prop :=
  s.createdTotal = s.destroyedTotal + liveCount s ∧
  ∀ p, s.componentRef = some p →
    p.closeSubs = 1 ∧ p.inBody = true ∧ p.id < s.nextId

/-! ### Datepicker directive (`SuiDatepickerDirective`) -/

/-- The `DatepickerMode` enumeration (imported by the directive from
`../components/datepicker`; the spec lists its five values). -/
inductive DatepickerMode
  | Year
  | Month
  | Date
  | Datetime
  | Time
deriving DecidableEq, Repr

/-- The five mutually exclusive calendar configuration variants from
`calendar-config` selected by the mode setter. Their mode-specific
contents are opaque to the directive, so they are modelled as bare
variants. -/
inductive CalendarConfig
  | YearConfig
  | MonthConfig
  | DateConfig
  | DatetimeConfig
  | TimeConfig
deriving DecidableEq, Repr

/-- The part of the `SuiDatepicker` popup component the directive
writes to in `writeValue`: its own `selectedDate`. Dates are modelled
as numeric timestamps. -/
structure SuiDatepicker where
  selectedDate : Option Nat
deriving DecidableEq, Repr

/-- State of `SuiDatepickerDirective`: the stored `_selectedDate` and
`_mode`, the derived `config` (unset until the mode setter first
runs), the optional live popup component instance, and the ghost
`emitted` log of `onDateChange` emissions. -/
structure DatepickerState where
  selectedDate : Option Nat
  mode : Option DatepickerMode
  config : Option CalendarConfig
  componentInstance : Option SuiDatepicker
  emitted : List (Option Nat)
deriving DecidableEq, Repr

/-- The `selectedDate` setter (source lines 31-34): store the date and
emit `onDateChange` once. -/
def setSelectedDate (s : DatepickerState) (d : Option Nat) : DatepickerState :=
  { s with selectedDate := d, emitted := s.emitted ++ [d] }

/-- The `mode` setter (source lines 44-66): `if (mode)` stores the
mode; the `switch` then selects the config variant, with `Date` and
the `default` branch sharing the `DateConfig` outcome. -/
def setMode (s : DatepickerState) (m : Option DatepickerMode) : DatepickerState :=
  let s1 :=
    match m with
    | some mm => { s with mode := some mm }
    | none => s
  match m with
  | some DatepickerMode.Year => { s1 with config := some CalendarConfig.YearConfig }
  | some DatepickerMode.Month => { s1 with config := some CalendarConfig.MonthConfig }
  | some DatepickerMode.Datetime => { s1 with config := some CalendarConfig.DatetimeConfig }
  | some DatepickerMode.Time => { s1 with config := some CalendarConfig.TimeConfig }
  | _ => { s1 with config := some CalendarConfig.DateConfig }

/-- `writeValue` (source lines 117-123): run the `selectedDate` setter
(which emits the change notification), then, if a component instance
exists, push the value into it. -/
def writeValue (s : DatepickerState) (v : Option Nat) : DatepickerState :=
  let s1 := setSelectedDate s v
  match s1.componentInstance with
  | some i => { s1 with componentInstance := some { i with selectedDate := v } }
  | none => s1

theorem inv_init (cfg : PopupConfig) : Inv (initState cfg) := by
  constructor
  · rfl
  · intro p hp
    simp [initState] at hp

theorem inv_openOp {s : ControllerState} (h : Inv s) : Inv (openOp s) := by
  obtain ⟨h1, h2⟩ := h
  constructor
  · simpa [openOp, liveCount] using h1
  · intro p hp
    exact h2 p hp

theorem inv_closeOp {s : ControllerState} (h : Inv s) : Inv (closeOp s) := by
  obtain ⟨h1, h2⟩ := h
  constructor
  · cases hr : s.componentRef with
    | none => simpa [closeOp, liveCount, hr] using h1
    | some p => simpa [closeOp, liveCount, hr] using h1
  · intro p hp
    simp only [closeOp] at hp
    cases hr : s.componentRef with
    | none => simp [hr] at hp
    | some q =>
        simp [hr] at hp
        obtain ⟨hq1, hq2, hq3⟩ := h2 q hr
        subst hp
        exact ⟨hq1, hq2, hq3⟩

theorem inv_toggleOp {s : ControllerState} (h : Inv s) : Inv (toggleOp s) := by
  unfold toggleOp
  cases hr : s.componentRef with
  | none => exact inv_openOp h
  | some p =>
      by_cases ho : p.isOpen
      · simp [ho]
        exact inv_closeOp h
      · simp [ho]
        exact inv_openOp h

theorem inv_fireTimer {s : ControllerState} (h : Inv s) : Inv (fireTimer s) := by
  obtain ⟨h1, h2⟩ := h
  unfold fireTimer
  by_cases hp : s.pending
  · simp only [hp, if_true]
    cases hr : s.componentRef with
    | none =>
        constructor
        · simp [liveCount, hr] at h1
          simp [liveCount, h1]
        · intro p hp2
          simp [popupOpen] at hp2
          subst hp2
          simp
    | some q =>
        constructor
        · simp [liveCount, hr] at h1
          simp [liveCount, h1]
        · intro p hp2
          simp at hp2
          obtain ⟨hq1, hq2, hq3⟩ := h2 q hr
          subst hp2
          exact ⟨hq1, hq2, hq3⟩
  · simp only [hp, if_false]
    exact ⟨h1, h2⟩

theorem inv_completeClose {s : ControllerState} (h : Inv s) : Inv (completeClose s) := by
  obtain ⟨h1, h2⟩ := h
  unfold completeClose
  cases hr : s.componentRef with
  | none => exact ⟨h1, h2⟩
  | some q =>
      constructor
      · simp [liveCount, hr] at h1
        simp [liveCount, h1]
      · intro p hp2
        simp at hp2

theorem inv_step {s : ControllerState} (e : Event) (h : Inv s) : Inv (step s e) := by
  cases e with
  | callOpen => exact inv_openOp h
  | callClose => exact inv_closeOp h
  | callToggle => exact inv_toggleOp h
  | timerFires => exact inv_fireTimer h
  | closeCompletes => exact inv_completeClose h
  | mouseEnter =>
      simp only [step, onMouseEnter]
      split
      · exact inv_openOp h
      · exact h
  | mouseLeave =>
      simp only [step, onMouseLeave]
      split
      · exact inv_closeOp h
      · exact h
  | anchorClick =>
      simp only [step, onClick]
      split
      · exact inv_toggleOp h
      · exact h
  | docClick loc =>
      simp only [step, onDocumentClick]
      split
      · split
        · exact inv_closeOp h
        · exact h
      · exact h
  | focusEv =>
      simp only [step, onFocus]
      split
      · exact inv_openOp h
      · exact h
  | focusOutEv =>
      simp only [step, onFocusOut]
      split
      · exact inv_closeOp h
      · exact h

theorem inv_foldl : ∀ (evs : List Event) (s : ControllerState),
    Inv s → Inv (evs.foldl step s) := by
  intro evs
  induction evs with
  | nil => intro s h; exact h
  | cons e rest ih =>
      intro s h
      exact ih (step s e) (inv_step e h)

theorem inv_run (cfg : PopupConfig) (evs : List Event) : Inv (run cfg evs) :=
  inv_foldl evs (initState cfg) (inv_init cfg)

theorem config_step (s : ControllerState) (e : Event) : (step s e).config = s.config := by
  cases e <;>
    simp only [step, openOp, closeOp, toggleOp, fireTimer, completeClose,
      onMouseEnter, onMouseLeave, onClick, onDocumentClick, onFocus, onFocusOut] <;>
    (repeat' split) <;> rfl

theorem config_foldl : ∀ (evs : List Event) (s : ControllerState),
    (evs.foldl step s).config = s.config := by
  intro evs
  induction evs with
  | nil => intro s; rfl
  | cons e rest ih =>
      intro s
      rw [List.foldl_cons, ih (step s e), config_step]

theorem config_run (cfg : PopupConfig) (evs : List Event) :
    (run cfg evs).config = cfg :=
  config_foldl evs (initState cfg)

/-! ### Claims -/

/-- C1: for every controller state, `open()` immediately followed by
`close()` before the delay elapses leaves no pending timer, creates no
instance (`createdTotal` unchanged), a stale timer elapse afterwards
is a no-op (the creation callback never runs), and if no instance
existed before, none exists after. -/
theorem open_then_close_no_creation (s : ControllerState) :
    (step (step s Event.callOpen) Event.callClose).pending = false ∧
    (step (step s Event.callOpen) Event.callClose).createdTotal = s.createdTotal ∧
    step (step (step s Event.callOpen) Event.callClose) Event.timerFires =
      step (step s Event.callOpen) Event.callClose ∧
    (s.componentRef = none →
      (step (step s Event.callOpen) Event.callClose).componentRef = none) := by
  refine ⟨rfl, rfl, ?_, ?_⟩
  · simp [step, fireTimer, closeOp, openOp]
  · intro h
    simp [step, closeOp, openOp, h]

/-- Witness for C1 at the freshly constructed controller. -/
theorem open_then_close_no_creation_witness :
    (step (step (initState { trigger := PopupTrigger.Focus, delay := 5 })
        Event.callOpen) Event.callClose).componentRef = none :=
  (open_then_close_no_creation
    (initState { trigger := PopupTrigger.Focus, delay := 5 })).2.2.2 rfl

/-- C2: in every reachable controller state, at most one instance is
live (created = destroyed + live and live ≤ 1), and when the delayed
open callback runs with an instance already present it creates nothing
(`createdTotal` and `nextId` unchanged) and merely re-invokes the
existing instance's open transition. -/
theorem at_most_one_instance (cfg : PopupConfig) (evs : List Event) :
    (run cfg evs).createdTotal =
      (run cfg evs).destroyedTotal + liveCount (run cfg evs) ∧
    liveCount (run cfg evs) ≤ 1 ∧
    ∀ (s : ControllerState) (p : SuiPopup), s.componentRef = some p →
      (step s Event.timerFires).createdTotal = s.createdTotal ∧
      (step s Event.timerFires).nextId = s.nextId ∧
      (step s Event.timerFires).componentRef =
        some (if s.pending then popupOpen p else p) := by
  refine ⟨(inv_run cfg evs).1, ?_, ?_⟩
  · unfold liveCount
    split <;> simp
  · intro s p hp
    by_cases hpend : s.pending
    · simp [step, fireTimer, hpend, hp]
    · simp [step, fireTimer, hpend, hp]

/-- Witness for C2: run with focus trigger to an open instance, then
let a timer elapse again. -/
theorem at_most_one_instance_witness :
    (step (run { trigger := PopupTrigger.Focus, delay := 0 }
        [Event.callOpen, Event.timerFires]) Event.timerFires).createdTotal =
      (run { trigger := PopupTrigger.Focus, delay := 0 }
        [Event.callOpen, Event.timerFires]).createdTotal :=
  ((at_most_one_instance { trigger := PopupTrigger.Focus, delay := 0 }
      [Event.callOpen, Event.timerFires]).2.2
    (run { trigger := PopupTrigger.Focus, delay := 0 }
      [Event.callOpen, Event.timerFires])
    { id := 0, isOpen := true, inBody := true, closeSubs := 1 }
    (by decide)).1

/-- C3: in every reachable state holding an instance, that instance
has its `onClose` completion handler registered exactly once; when the
completion signal fires the reference is cleared; and a subsequent
`open()` plus timer elapse creates a structurally new instance (a
different `id`, hence not the old reference). -/
theorem close_completion_clears_and_fresh (cfg : PopupConfig) (evs : List Event)
    (p : SuiPopup) (hp : (run cfg evs).componentRef = some p) :
    p.closeSubs = 1 ∧
    (step (run cfg evs) Event.closeCompletes).componentRef = none ∧
    ∃ q : SuiPopup,
      (step (step (step (run cfg evs) Event.closeCompletes) Event.callOpen)
          Event.timerFires).componentRef = some q ∧
      q.id ≠ p.id := by
  obtain ⟨h1, h2⟩ := inv_run cfg evs
  obtain ⟨hs, hb, hid⟩ := h2 p hp
  refine ⟨hs, ?_, ?_⟩
  · simp [step, completeClose, hp]
  · refine ⟨popupOpen
      { id := (run cfg evs).nextId, isOpen := false, inBody := true, closeSubs := 1 },
      ?_, ?_⟩
    · simp [step, completeClose, openOp, fireTimer, hp]
    · simp only [popupOpen]
      omega

/-- Witness for C3 on a concrete trace that opens a popup. -/
theorem close_completion_clears_and_fresh_witness :
    ((run { trigger := PopupTrigger.Focus, delay := 0 }
        [Event.callOpen, Event.timerFires]).componentRef =
      some { id := 0, isOpen := true, inBody := true, closeSubs := 1 }) ∧
    ({ id := 0, isOpen := true, inBody := true, closeSubs := 1 } : SuiPopup).closeSubs = 1 :=
  ⟨by decide,
    (close_completion_clears_and_fresh { trigger := PopupTrigger.Focus, delay := 0 }
      [Event.callOpen, Event.timerFires]
      { id := 0, isOpen := true, inBody := true, closeSubs := 1 }
      (by decide)).1⟩

/-- C4: the trigger policy dispatch table. Mouse enter and mouse leave
act (open, respectively close) exactly under `Hover`; an anchor click
toggles exactly under `Click` or `OutsideClick`; focus and focus-out
act (open, respectively close) exactly under `Focus`; under every
other mode/event pair the state is untouched, and under `Manual` no
event does anything. -/
theorem trigger_policy_table (s : ControllerState) :
    (step s Event.mouseEnter =
      if s.config.trigger = PopupTrigger.Hover then openOp s else s) ∧
    (step s Event.mouseLeave =
      if s.config.trigger = PopupTrigger.Hover then closeOp s else s) ∧
    (step s Event.anchorClick =
      if s.config.trigger = PopupTrigger.Click ∨
         s.config.trigger = PopupTrigger.OutsideClick then toggleOp s else s) ∧
    (step s Event.focusEv =
      if s.config.trigger = PopupTrigger.Focus then openOp s else s) ∧
    (step s Event.focusOutEv =
      if s.config.trigger = PopupTrigger.Focus then closeOp s else s) ∧
    (s.config.trigger = PopupTrigger.Manual →
      step s Event.mouseEnter = s ∧ step s Event.mouseLeave = s ∧
      step s Event.anchorClick = s ∧ step s Event.focusEv = s ∧
      step s Event.focusOutEv = s) := by
  refine ⟨rfl, rfl, rfl, rfl, rfl, ?_⟩
  intro h
  simp [step, onMouseEnter, onMouseLeave, onClick, onFocus, onFocusOut, h]

/-- Witness for C4 at a manual-trigger controller. -/
theorem trigger_policy_table_witness :
    step (initState { trigger := PopupTrigger.Manual, delay := 0 })
        Event.mouseEnter =
      initState { trigger := PopupTrigger.Manual, delay := 0 } :=
  ((trigger_policy_table
    (initState { trigger := PopupTrigger.Manual, delay := 0 })).2.2.2.2.2 rfl).1

/-- C5: a document-wide click closes the popup exactly when the
trigger mode is `OutsideClick`, an instance exists, and the click
target is not contained in the anchor element; in particular a click
landing inside the anchor never changes the state. -/
theorem document_click_policy (s : ControllerState) (loc : TargetLoc) :
    (step s (Event.docClick loc) =
      if s.componentRef.isSome ∧ s.config.trigger = PopupTrigger.OutsideClick ∧
         anchorContains loc = false
      then closeOp s else s) ∧
    step s (Event.docClick TargetLoc.inAnchor) = s := by
  constructor
  · by_cases h1 : s.componentRef.isSome
    · by_cases h2 : s.config.trigger = PopupTrigger.OutsideClick
      · cases loc <;> simp [step, onDocumentClick, anchorContains, h1, h2]
      · simp [step, onDocumentClick, h2]
    · simp [step, onDocumentClick, h1]
  · simp [step, onDocumentClick, anchorContains]

/-- C6: `toggle()` delegates to `open()` when no instance exists or
the instance reports not-open, and to `close()` when the instance
reports open. -/
theorem toggle_delegation (s : ControllerState) :
    (s.componentRef = none → step s Event.callToggle = openOp s) ∧
    (∀ p, s.componentRef = some p → p.isOpen = false →
      step s Event.callToggle = openOp s) ∧
    (∀ p, s.componentRef = some p → p.isOpen = true →
      step s Event.callToggle = closeOp s) := by
  refine ⟨?_, ?_, ?_⟩
  · intro h
    simp [step, toggleOp, h]
  · intro p hp ho
    simp [step, toggleOp, hp, ho]
  · intro p hp ho
    simp [step, toggleOp, hp, ho]

/-- Witness for C6 at the freshly constructed controller. -/
theorem toggle_delegation_witness :
    step (initState { trigger := PopupTrigger.Click, delay := 0 })
        Event.callToggle =
      openOp (initState { trigger := PopupTrigger.Click, delay := 0 }) :=
  (toggle_delegation
    (initState { trigger := PopupTrigger.Click, delay := 0 })).1 rfl

/-- C7: each of the five picker modes selects exactly the
correspondingly named config variant (and stores the mode); an absent
mode leaves the stored mode unchanged while still resetting the config
to the `Date` variant. -/
theorem mode_setter_mapping (s : DatepickerState) :
    (setMode s (some DatepickerMode.Year)).config = some CalendarConfig.YearConfig ∧
    (setMode s (some DatepickerMode.Year)).mode = some DatepickerMode.Year ∧
    (setMode s (some DatepickerMode.Month)).config = some CalendarConfig.MonthConfig ∧
    (setMode s (some DatepickerMode.Month)).mode = some DatepickerMode.Month ∧
    (setMode s (some DatepickerMode.Date)).config = some CalendarConfig.DateConfig ∧
    (setMode s (some DatepickerMode.Date)).mode = some DatepickerMode.Date ∧
    (setMode s (some DatepickerMode.Datetime)).config = some CalendarConfig.DatetimeConfig ∧
    (setMode s (some DatepickerMode.Datetime)).mode = some DatepickerMode.Datetime ∧
    (setMode s (some DatepickerMode.Time)).config = some CalendarConfig.TimeConfig ∧
    (setMode s (some DatepickerMode.Time)).mode = some DatepickerMode.Time ∧
    (setMode s none).mode = s.mode ∧
    (setMode s none).config = some CalendarConfig.DateConfig :=
  ⟨rfl, rfl, rfl, rfl, rfl, rfl, rfl, rfl, rfl, rfl, rfl, rfl⟩

/-- C8: `writeValue(d)` stores `d` so that `selectedDate` reads it
back, emits the change notification exactly once, and pushes the value
into the live component instance when one exists (leaving none when
none exists). -/
theorem writeValue_contract (s : DatepickerState) (v : Option Nat) :
    (writeValue s v).selectedDate = v ∧
    (writeValue s v).emitted = s.emitted ++ [v] ∧
    (s.componentInstance = none → (writeValue s v).componentInstance = none) ∧
    (∀ i, s.componentInstance = some i →
      (writeValue s v).componentInstance = some { i with selectedDate := v }) := by
  refine ⟨?_, ?_, ?_, ?_⟩
  · cases hi : s.componentInstance <;> simp [writeValue, setSelectedDate, hi]
  · cases hi : s.componentInstance <;> simp [writeValue, setSelectedDate, hi]
  · intro h
    simp [writeValue, setSelectedDate, h]
  · intro i hi
    simp [writeValue, setSelectedDate, hi]

/-- Witness for C8 on a concrete directive state carrying a live
instance. -/
theorem writeValue_contract_witness :
    (writeValue
      { selectedDate := none, mode := none, config := none,
        componentInstance := some { selectedDate := none }, emitted := [] }
      (some 7)).componentInstance = some { selectedDate := some 7 } :=
  (writeValue_contract
    { selectedDate := none, mode := none, config := none,
      componentInstance := some { selectedDate := none }, emitted := [] }
    (some 7)).2.2.2 { selectedDate := none } rfl

/-- C9: `close()` always cancels the pending open timer; with no
instance it changes nothing else (a tolerated no-op on the instance
state); with an instance it only starts the instance close transition,
destroying nothing synchronously. -/
theorem close_tolerant (s : ControllerState) :
    (step s Event.callClose).pending = false ∧
    (s.componentRef = none →
      step s Event.callClose =
        { s with pending := false, calls := s.calls ++ [CallTag.closeC] }) ∧
    (∀ p, s.componentRef = some p →
      (step s Event.callClose).componentRef = some (popupClose p) ∧
      (step s Event.callClose).destroyedTotal = s.destroyedTotal ∧
      (step s Event.callClose).createdTotal = s.createdTotal) := by
  refine ⟨rfl, ?_, ?_⟩
  · intro h
    simp [step, closeOp, h]
  · intro p hp
    simp [step, closeOp, hp]

/-- Witness for C9 at the freshly constructed controller. -/
theorem close_tolerant_witness :
    step (initState { trigger := PopupTrigger.Hover, delay := 3 })
        Event.callClose =
      { initState { trigger := PopupTrigger.Hover, delay := 3 } with
          pending := false, calls := [CallTag.closeC] } :=
  (close_tolerant
    (initState { trigger := PopupTrigger.Hover, delay := 3 })).2.1 rfl

/-- C10: under `OutsideClick` with a live instance, the containment
check consults only the anchor (`anchorContains` is false both inside
the popup and elsewhere), the instance element sits in the document
body, and a document click landing inside the popup content still
invokes `close()`. -/
theorem click_inside_popup_closes (cfg : PopupConfig) (evs : List Event)
    (p : SuiPopup)
    (ht : cfg.trigger = PopupTrigger.OutsideClick)
    (hp : (run cfg evs).componentRef = some p) :
    p.inBody = true ∧
    anchorContains TargetLoc.inPopup = false ∧
    step (run cfg evs) (Event.docClick TargetLoc.inPopup) =
      closeOp (run cfg evs) := by
  obtain ⟨h1, h2⟩ := inv_run cfg evs
  obtain ⟨hs, hb, hid⟩ := h2 p hp
  have hc : (run cfg evs).config = cfg := config_run cfg evs
  refine ⟨hb, rfl, ?_⟩
  simp [step, onDocumentClick, hp, hc, ht, anchorContains]

/-- Witness for C10 on a concrete outside-click trace with an open
popup. -/
theorem click_inside_popup_closes_witness :
    (run { trigger := PopupTrigger.OutsideClick, delay := 0 }
      [Event.callOpen, Event.timerFires]).componentRef =
        some { id := 0, isOpen := true, inBody := true, closeSubs := 1 } ∧
    ({ id := 0, isOpen := true, inBody := true, closeSubs := 1 } : SuiPopup).inBody = true :=
  ⟨by decide,
    (click_inside_popup_closes { trigger := PopupTrigger.OutsideClick, delay := 0 }
      [Event.callOpen, Event.timerFires]
      { id := 0, isOpen := true, inBody := true, closeSubs := 1 }
      rfl (by decide)).1⟩

end NgPopup
